import Mathlib

/-!
Shallow embedding of the KPI engine of the study-dashboard repository
(Phase03/src): the domain model (models.py), the aggregate queries of the
repositories (repositories.py) and DashboardService.compute_kpis
(services.py), together with theorems settling the specification claims.

Modelling conventions:
* calendar dates are day numbers (ℤ); subtracting two dates gives the
  day difference, adding an integer to a date is timedelta addition;
* Python floats are modelled as ℚ;
* Python round (round half to even) is pyRound;
* the SQLite database state is a pair of row lists (tables modul and
  modul_belegung); SQL aggregates become list folds over those rows;
* date.today() becomes an explicit parameter today.
-/

/-- Catalog entry of table modul (models.Modul): titel, ects,
plan_semester_nr, optional default date. modul_id is the primary key. -/
structure Modul where
  modul_id : ℤ
  titel : String
  ects : ℤ
  plan_semester_nr : ℤ
  default_soll_bestanden_am : Option ℤ
deriving DecidableEq

/-- Row of table modul_belegung (models.ModulBelegung): enrollment of a
module inside a study program, with optional actual-completion data. -/
structure ModulBelegung where
  belegung_id : ℤ
  studiengang_id : ℤ
  modul_id : ℤ
  plan_semester_nr : ℤ
  ist_semester_nr : Option ℤ
  soll_bestanden_am : Option ℤ
  ist_bestanden_am : Option ℤ
  soll_note : Option ℚ
  ist_note : Option ℚ
  anzahl_versuche : ℤ
deriving DecidableEq

/-- Committed database state: the two tables the KPI queries read. -/
structure DB where
  modul : List Modul
  modul_belegung : List ModulBelegung
deriving DecidableEq

/-- Model invariant established by Modul.__post_init__ (models.py):
every catalog entry has ects > 0. -/
def ModulEctsPositive (db : DB) : Prop :=
  ∀ m ∈ db.modul, 0 < m.ects

/-- Python round on floats: round half to even (banker's rounding),
as used by services.py via int(round(x)). -/
def pyRound (x : ℚ) : ℤ :=
  let f : ℤ := ⌊x⌋
  let frac : ℚ := x - (f : ℚ)
  if frac < 1/2 then f
  else if 1/2 < frac then f + 1
  else if f % 2 = 0 then f else f + 1

/-- The SQL join of modul_belegung with modul on modul_id, restricted to
one studiengang_id, as used by the KPI helper queries of
ModulBelegungRepository. modul_id is the primary key of modul, so the
first matching catalog row is the only one. -/
def joinRows (db : DB) (sgid : ℤ) : List (ModulBelegung × Modul) :=
  db.modul_belegung.filterMap fun b =>
    if b.studiengang_id = sgid then
      (db.modul.find? fun m => m.modul_id == b.modul_id).map fun m => (b, m)
    else none

/-- ModulRepository.get_total_ects: COALESCE(SUM(ects),0) over table
modul, returned as float. -/
def get_total_ects (db : DB) : ℚ :=
  (db.modul.map fun m => (m.ects : ℚ)).sum

/-- ModulBelegungRepository.sum_ects_completed: COALESCE(SUM(m.ects),0)
over the join, restricted to rows whose ist_bestanden_am is set. -/
def sum_ects_completed (db : DB) (sgid : ℤ) : ℚ :=
  (((joinRows db sgid).filter fun p => p.1.ist_bestanden_am.isSome).map
    fun p => (p.2.ects : ℚ)).sum

/-- The rows of the join whose ist_note is set ("graded enrollments"),
the rows aggregated by avg_grade_weighted. -/
def gradedRows (db : DB) (sgid : ℤ) : List (ModulBelegung × Modul) :=
  (joinRows db sgid).filter fun p => p.1.ist_note.isSome

/-- ModulBelegungRepository.avg_grade_weighted: SUM(ects*ist_note) /
SUM(ects) over the graded rows; None when SUM(ects) is NULL (no graded
row, SQL NULL sum) or 0 — the code checks row["ects"] in (None, 0). -/
def avg_grade_weighted (db : DB) (sgid : ℤ) : Option ℚ :=
  let wsum : ℚ := ((gradedRows db sgid).map
    fun p => (p.2.ects : ℚ) * p.1.ist_note.getD 0).sum
  let esum : ℚ := ((gradedRows db sgid).map fun p => (p.2.ects : ℚ)).sum
  if esum = 0 then none else some (wsum / esum)

/-- ModulBelegungRepository.last_completion_date: MAX(ist_bestanden_am)
over modul_belegung for the studiengang, None when no row has one.
ISO-date string order in SQL equals date order, hence max on ℤ days. -/
def last_completion_date (db : DB) (sgid : ℤ) : Option ℤ :=
  (db.modul_belegung.filterMap fun b =>
    if b.studiengang_id = sgid then b.ist_bestanden_am else none).max?

/-- Target-credit determination of compute_kpis (services.py 414-418):
start from 0, take soll_studiensemester * ects_pro_semester when the
semester count is set and positive, and fall back to the catalog total
when the value so far is non-positive. -/
def zielEcts (soll_studiensemester : Option ℤ) (ects_pro_semester : ℤ)
    (total_ects : ℚ) : ℚ :=
  let z : ℚ := match soll_studiensemester with
    | some s => if 0 < s then ((s * ects_pro_semester : ℤ) : ℚ) else 0
    | none => 0
  if z ≤ 0 then total_ects else z

/-- Target-duration derivation of compute_kpis (services.py 428-429):
when no positive duration was passed but a semester count exists, derive
the duration as semesters / 2. Python truthiness: "not x or x <= 0.0"
on a float is x ≤ 0. -/
def sollDauer (soll_dauer_jahre : ℚ) (soll_studiensemester : Option ℤ) : ℚ :=
  match soll_studiensemester with
  | some s => if soll_dauer_jahre ≤ 0 then (s : ℚ) / 2 else soll_dauer_jahre
  | none => soll_dauer_jahre

/-- Target end date of compute_kpis (services.py 432-436): start +
round(duration * 365.25) days when the duration is positive, else None.
Python truthiness: "x and x > 0" on a float is 0 < x. -/
def sollEnd (start_datum : ℤ) (soll_dauer_jahre : ℚ) : Option ℤ :=
  if 0 < soll_dauer_jahre then
    some (start_datum + pyRound (soll_dauer_jahre * (365.25 : ℚ)))
  else none

/-- Reference date of compute_kpis (services.py 441-444): the last
completion date when target credits are positive, completed credits
reach them and such a date exists; otherwise today. -/
def refDate (ziel_ects erledigt_ects : ℚ) (last_passed : Option ℤ)
    (today : ℤ) : ℤ :=
  if 0 < ziel_ects ∧ ziel_ects ≤ erledigt_ects ∧ last_passed.isSome then
    last_passed.getD today
  else today

/-- Elapsed days of compute_kpis (services.py 446):
max(0, (ref_date - start_datum).days). -/
def elapsedDays (start_datum ref_date : ℤ) : ℤ :=
  max 0 (ref_date - start_datum)

/-- Result record DashboardKPIs of services.py. -/
structure DashboardKPIs where
  fortschritt_ects : ℚ
  ist_durchschnittsnote : Option ℚ
  ist_studiendauer_jahre : ℚ
  delta_studiendauer_jahre : ℚ
  ist_studienende : Option ℤ
  soll_studienende : Option ℤ
  prognose_studienende : Option ℤ
  delta_studienende_tage : Option ℤ
  prognose_studienende_plan : Option ℤ
  delta_studienende_plan_tage : Option ℤ
  verzug_bisher_tage : Option ℤ
  ziel_ects : ℚ
  erledigt_ects : ℚ
deriving DecidableEq

/-- DashboardService.compute_kpis (services.py 377-492). The database
state stands for the repositories the service reads; today stands for
date.today(). Every guard and formula follows the source line by line;
float(x or 0.0) in the delta keeps the value of x, so it is x here. -/
def compute_kpis (db : DB) (studiengang_id : ℤ) (start_datum : ℤ)
    (soll_dauer_jahre : ℚ) (soll_studiensemester : Option ℤ)
    (ects_pro_semester : ℤ) (today : ℤ) : DashboardKPIs :=
  let ziel : ℚ := zielEcts soll_studiensemester ects_pro_semester (get_total_ects db)
  let erledigt : ℚ := sum_ects_completed db studiengang_id
  let fortschritt : ℚ := if 0 < ziel then erledigt / ziel else 0
  let avg : Option ℚ := avg_grade_weighted db studiengang_id
  let last_passed : Option ℤ := last_completion_date db studiengang_id
  let dauer : ℚ := sollDauer soll_dauer_jahre soll_studiensemester
  let soll_end : Option ℤ := sollEnd start_datum dauer
  let ref_date : ℤ := refDate ziel erledigt last_passed today
  let elapsed : ℤ := elapsedDays start_datum ref_date
  let ist_dauer : ℚ := if 0 < elapsed then (elapsed : ℚ) / (365.25 : ℚ) else 0
  let delta_dauer : ℚ := ist_dauer - dauer
  let prognose_end : Option ℤ :=
    if 0 < erledigt ∧ 0 < ziel then
      some (start_datum + pyRound ((elapsed : ℚ) / erledigt * ziel))
    else none
  let delta_end : Option ℤ :=
    match prognose_end, soll_end with
    | some pe, some se => some (pe - se)
    | _, _ => none
  let verzug : Option ℤ :=
    match soll_end with
    | some se =>
      if 0 < ziel then
        let soll_total_days : ℤ := max 0 (se - start_datum)
        let planned_days_per_ects : ℚ :=
          if 0 < ziel then (soll_total_days : ℚ) / ziel else 0
        let expected_elapsed_days : ℚ := planned_days_per_ects * erledigt
        some (pyRound ((elapsed : ℚ) - expected_elapsed_days))
      else none
    | none => none
  let prognose_plan : Option ℤ :=
    match soll_end, verzug with
    | some se, some v => some (se + v)
    | _, _ => none
  let delta_plan : Option ℤ :=
    match soll_end, prognose_plan with
    | some se, some pp => some (pp - se)
    | _, _ => none
  { fortschritt_ects := fortschritt
    ist_durchschnittsnote := avg
    ist_studiendauer_jahre := ist_dauer
    delta_studiendauer_jahre := delta_dauer
    ist_studienende := last_passed
    soll_studienende := soll_end
    prognose_studienende := prognose_end
    delta_studienende_tage := delta_end
    prognose_studienende_plan := prognose_plan
    delta_studienende_plan_tage := delta_plan
    verzug_bisher_tage := verzug
    ziel_ects := ziel
    erledigt_ects := erledigt }

/-- Division with an explicit zero-divisor failure, used to show that
no division in the engine can divide by zero (claim about arithmetic
safety): the checked engine returns none iff some division's divisor
is zero at the division site. -/
def checkedDiv (a b : ℚ) : Option ℚ :=
  if b = 0 then none else some (a / b)

/-- avg_grade_weighted with its single division made fallible. -/
def avg_grade_weightedChecked (db : DB) (sgid : ℤ) : Option (Option ℚ) :=
  let wsum : ℚ := ((gradedRows db sgid).map
    fun p => (p.2.ects : ℚ) * p.1.ist_note.getD 0).sum
  let esum : ℚ := ((gradedRows db sgid).map fun p => (p.2.ects : ℚ)).sum
  if esum = 0 then some none
  else (checkedDiv wsum esum).map some

/-- sollDauer with its division by 2 made fallible. -/
def sollDauerChecked (soll_dauer_jahre : ℚ) (soll_studiensemester : Option ℤ) :
    Option ℚ :=
  match soll_studiensemester with
  | some s =>
    if soll_dauer_jahre ≤ 0 then checkedDiv (s : ℚ) 2
    else some soll_dauer_jahre
  | none => some soll_dauer_jahre

/-- compute_kpis with every division replaced by checkedDiv, threaded
through Option: it returns none iff some division in the engine would
divide by zero. Shaped exactly like compute_kpis otherwise. -/
def compute_kpisChecked (db : DB) (studiengang_id : ℤ) (start_datum : ℤ)
    (soll_dauer_jahre : ℚ) (soll_studiensemester : Option ℤ)
    (ects_pro_semester : ℤ) (today : ℤ) : Option DashboardKPIs :=
  let ziel : ℚ := zielEcts soll_studiensemester ects_pro_semester (get_total_ects db)
  let erledigt : ℚ := sum_ects_completed db studiengang_id
  Option.bind (if 0 < ziel then checkedDiv erledigt ziel else some 0) fun fortschritt =>
  Option.bind (avg_grade_weightedChecked db studiengang_id) fun avg =>
  let last_passed : Option ℤ := last_completion_date db studiengang_id
  Option.bind (sollDauerChecked soll_dauer_jahre soll_studiensemester) fun dauer =>
  let soll_end : Option ℤ := sollEnd start_datum dauer
  let ref_date : ℤ := refDate ziel erledigt last_passed today
  let elapsed : ℤ := elapsedDays start_datum ref_date
  Option.bind (if 0 < elapsed then checkedDiv (elapsed : ℚ) (365.25 : ℚ) else some 0)
    fun ist_dauer =>
  let delta_dauer : ℚ := ist_dauer - dauer
  Option.bind
    (if 0 < erledigt ∧ 0 < ziel then
      Option.bind (checkedDiv (elapsed : ℚ) erledigt) fun pace =>
        some (some (start_datum + pyRound (pace * ziel)))
    else some none) fun prognose_end =>
  let delta_end : Option ℤ :=
    match prognose_end, soll_end with
    | some pe, some se => some (pe - se)
    | _, _ => none
  Option.bind
    (match soll_end with
     | some se =>
       if 0 < ziel then
         Option.bind
           (if 0 < ziel then
             checkedDiv ((max 0 (se - start_datum) : ℤ) : ℚ) ziel
           else some 0) fun planned_days_per_ects =>
           some (some (pyRound ((elapsed : ℚ) - planned_days_per_ects * erledigt)))
       else some none
     | none => some none) fun verzug =>
  let prognose_plan : Option ℤ :=
    match soll_end, verzug with
    | some se, some v => some (se + v)
    | _, _ => none
  let delta_plan : Option ℤ :=
    match soll_end, prognose_plan with
    | some se, some pp => some (pp - se)
    | _, _ => none
  some
  { fortschritt_ects := fortschritt
    ist_durchschnittsnote := avg
    ist_studiendauer_jahre := ist_dauer
    delta_studiendauer_jahre := delta_dauer
    ist_studienende := last_passed
    soll_studienende := soll_end
    prognose_studienende := prognose_end
    delta_studienende_tage := delta_end
    prognose_studienende_plan := prognose_plan
    delta_studienende_plan_tage := delta_plan
    verzug_bisher_tage := verzug
    ziel_ects := ziel
    erledigt_ects := erledigt }

/-- Concrete catalog entry for witness instances: a 5-ECTS module. -/
def demoModul : Modul :=
  { modul_id := 1, titel := "M1", ects := 5, plan_semester_nr := 1,
    default_soll_bestanden_am := none }

/-- Concrete enrollment for witness instances: completed 100 days after
start with grade 2.0 (scenario B of the spec). -/
def demoBelegung : ModulBelegung :=
  { belegung_id := 1, studiengang_id := 1, modul_id := 1,
    plan_semester_nr := 1, ist_semester_nr := none,
    soll_bestanden_am := none, ist_bestanden_am := some 100,
    soll_note := none, ist_note := some 2, anzahl_versuche := 1 }

/-- Concrete database for witness instances: one module, one completed
enrollment in program 1. -/
def demoDB : DB :=
  { modul := [demoModul], modul_belegung := [demoBelegung] }

/-- Catalog entry for the over-completion witness: a 10-ECTS module. -/
def demoModul2 : Modul :=
  { modul_id := 1, titel := "M2", ects := 10, plan_semester_nr := 1,
    default_soll_bestanden_am := none }

/-- Second completed enrollment of the same module (a repeated attempt,
both completed), used to overshoot the catalog-based target. -/
def demoBelegung2 : ModulBelegung :=
  { belegung_id := 2, studiengang_id := 1, modul_id := 1,
    plan_semester_nr := 1, ist_semester_nr := none,
    soll_bestanden_am := none, ist_bestanden_am := some 50,
    soll_note := none, ist_note := none, anzahl_versuche := 2 }

/-- Database where completed credits (20) exceed the catalog-fallback
target credits (10): both enrollments of the 10-ECTS module completed. -/
def demoDB2 : DB :=
  { modul := [demoModul2]
    modul_belegung :=
      [{ demoBelegung2 with belegung_id := 1, ist_bestanden_am := some 40 },
       demoBelegung2] }

/-- Projection: the transparency field ziel_ects of the result is the
target-credit value of services.py 414-418. -/
theorem compute_kpis_ziel_ects (db : DB) (sgid start : ℤ) (dauer : ℚ)
    (sems : Option ℤ) (eps today : ℤ) :
    (compute_kpis db sgid start dauer sems eps today).ziel_ects
      = zielEcts sems eps (get_total_ects db) := rfl

/-- Projection: the transparency field erledigt_ects of the result is
the completed-credit aggregate. -/
theorem compute_kpis_erledigt_ects (db : DB) (sgid start : ℤ) (dauer : ℚ)
    (sems : Option ℤ) (eps today : ℤ) :
    (compute_kpis db sgid start dauer sems eps today).erledigt_ects
      = sum_ects_completed db sgid := rfl

/-- Projection: the completion fraction of the result (services.py 421). -/
theorem compute_kpis_fortschritt (db : DB) (sgid start : ℤ) (dauer : ℚ)
    (sems : Option ℤ) (eps today : ℤ) :
    (compute_kpis db sgid start dauer sems eps today).fortschritt_ects
      = (if 0 < zielEcts sems eps (get_total_ects db) then
          sum_ects_completed db sgid / zielEcts sems eps (get_total_ects db)
        else 0) := rfl

/-- Projection: the weighted average grade of the result. -/
theorem compute_kpis_note (db : DB) (sgid start : ℤ) (dauer : ℚ)
    (sems : Option ℤ) (eps today : ℤ) :
    (compute_kpis db sgid start dauer sems eps today).ist_durchschnittsnote
      = avg_grade_weighted db sgid := rfl

/-- Projection: the target end date of the result. -/
theorem compute_kpis_soll_ende (db : DB) (sgid start : ℤ) (dauer : ℚ)
    (sems : Option ℤ) (eps today : ℤ) :
    (compute_kpis db sgid start dauer sems eps today).soll_studienende
      = sollEnd start (sollDauer dauer sems) := rfl

/-- Projection: the actual study duration of the result, derived from
elapsed days over the reference date (services.py 449). -/
theorem compute_kpis_ist_dauer (db : DB) (sgid start : ℤ) (dauer : ℚ)
    (sems : Option ℤ) (eps today : ℤ) :
    (compute_kpis db sgid start dauer sems eps today).ist_studiendauer_jahre
      = (if 0 < elapsedDays start
            (refDate (zielEcts sems eps (get_total_ects db))
              (sum_ects_completed db sgid) (last_completion_date db sgid) today)
        then ((elapsedDays start
            (refDate (zielEcts sems eps (get_total_ects db))
              (sum_ects_completed db sgid) (last_completion_date db sgid) today) : ℤ) : ℚ)
            / (365.25 : ℚ)
        else 0) := rfl

/-- Projection: the pace-based forecast end date of the result
(services.py 455-462). -/
theorem compute_kpis_prognose (db : DB) (sgid start : ℤ) (dauer : ℚ)
    (sems : Option ℤ) (eps today : ℤ) :
    (compute_kpis db sgid start dauer sems eps today).prognose_studienende
      = (if 0 < sum_ects_completed db sgid ∧ 0 < zielEcts sems eps (get_total_ects db) then
          some (start + pyRound
            (((elapsedDays start
                (refDate (zielEcts sems eps (get_total_ects db))
                  (sum_ects_completed db sgid) (last_completion_date db sgid) today) : ℤ) : ℚ)
              / sum_ects_completed db sgid * zielEcts sems eps (get_total_ects db)))
        else none) := rfl

/-- Projection: the delta of the pace forecast to the target end date. -/
theorem compute_kpis_delta_tage (db : DB) (sgid start : ℤ) (dauer : ℚ)
    (sems : Option ℤ) (eps today : ℤ) :
    (compute_kpis db sgid start dauer sems eps today).delta_studienende_tage
      = (match (compute_kpis db sgid start dauer sems eps today).prognose_studienende,
              sollEnd start (sollDauer dauer sems) with
        | some pe, some se => some (pe - se)
        | _, _ => none) := rfl

/-- Projection: the accumulated-delay field of the plan forecast
(services.py 469-473). -/
theorem compute_kpis_verzug (db : DB) (sgid start : ℤ) (dauer : ℚ)
    (sems : Option ℤ) (eps today : ℤ) :
    (compute_kpis db sgid start dauer sems eps today).verzug_bisher_tage
      = (match sollEnd start (sollDauer dauer sems) with
        | some se =>
          if 0 < zielEcts sems eps (get_total_ects db) then
            some (pyRound
              (((elapsedDays start
                  (refDate (zielEcts sems eps (get_total_ects db))
                    (sum_ects_completed db sgid) (last_completion_date db sgid) today) : ℤ) : ℚ)
                - (if 0 < zielEcts sems eps (get_total_ects db) then
                    ((max 0 (se - start) : ℤ) : ℚ) / zielEcts sems eps (get_total_ects db)
                  else 0) * sum_ects_completed db sgid))
          else none
        | none => none) := rfl

/-- Projection: the plan-based forecast end date (services.py 474). -/
theorem compute_kpis_prognose_plan (db : DB) (sgid start : ℤ) (dauer : ℚ)
    (sems : Option ℤ) (eps today : ℤ) :
    (compute_kpis db sgid start dauer sems eps today).prognose_studienende_plan
      = (match sollEnd start (sollDauer dauer sems),
              (compute_kpis db sgid start dauer sems eps today).verzug_bisher_tage with
        | some se, some v => some (se + v)
        | _, _ => none) := rfl

/-- Projection: the delta of the plan forecast to the target end date
(services.py 475). -/
theorem compute_kpis_delta_plan (db : DB) (sgid start : ℤ) (dauer : ℚ)
    (sems : Option ℤ) (eps today : ℤ) :
    (compute_kpis db sgid start dauer sems eps today).delta_studienende_plan_tage
      = (match sollEnd start (sollDauer dauer sems),
              (compute_kpis db sgid start dauer sems eps today).prognose_studienende_plan with
        | some se, some pp => some (pp - se)
        | _, _ => none) := rfl

/-- Python round of an integer value is that integer. -/
theorem pyRound_intCast (n : ℤ) : pyRound (n : ℚ) = n := by
  unfold pyRound
  rw [Int.floor_intCast]
  norm_num

/-- Python round of a nonnegative value is nonnegative. -/
theorem pyRound_nonneg {x : ℚ} (hx : 0 ≤ x) : 0 ≤ pyRound x := by
  have hf : (0 : ℤ) ≤ ⌊x⌋ := Int.floor_nonneg.mpr hx
  simp only [pyRound]
  split_ifs <;> omega

/-- Every joined row comes from an enrollment of the requested program
and a catalog entry of the database. -/
theorem mem_joinRows {db : DB} {sgid : ℤ} {p : ModulBelegung × Modul}
    (hp : p ∈ joinRows db sgid) :
    p.1 ∈ db.modul_belegung ∧ p.1.studiengang_id = sgid ∧ p.2 ∈ db.modul := by
  unfold joinRows at hp
  rcases List.mem_filterMap.mp hp with ⟨b, hb, hfb⟩
  by_cases hsg : b.studiengang_id = sgid
  · rw [if_pos hsg] at hfb
    rcases Option.map_eq_some'.mp hfb with ⟨m, hm, hbm⟩
    have hmem : m ∈ db.modul := List.mem_of_find?_eq_some hm
    cases hbm
    exact ⟨hb, hsg, hmem⟩
  · rw [if_neg hsg] at hfb
    cases hfb

/-- With the catalog invariant, the completed-credit sum is nonnegative. -/
theorem sum_ects_completed_nonneg (db : DB) (sgid : ℤ)
    (hm : ModulEctsPositive db) : 0 ≤ sum_ects_completed db sgid := by
  unfold sum_ects_completed
  apply List.sum_nonneg
  intro x hx
  rcases List.mem_map.mp hx with ⟨p, hp, rfl⟩
  have hpj : p ∈ joinRows db sgid := (List.mem_filter.mp hp).1
  have hects := hm p.2 (mem_joinRows hpj).2.2
  exact_mod_cast le_of_lt hects

/-- With the catalog invariant, the catalog credit total is nonnegative. -/
theorem get_total_ects_nonneg (db : DB) (hm : ModulEctsPositive db) :
    0 ≤ get_total_ects db := by
  unfold get_total_ects
  apply List.sum_nonneg
  intro x hx
  rcases List.mem_map.mp hx with ⟨m, hmm, rfl⟩
  exact_mod_cast le_of_lt (hm m hmm)

/-- Appending one enrollment row splits the completed-credit sum. -/
theorem sum_ects_completed_append (db : DB) (sgid : ℤ) (b : ModulBelegung) :
    sum_ects_completed (DB.mk db.modul (db.modul_belegung ++ [b])) sgid
      = sum_ects_completed db sgid
        + sum_ects_completed (DB.mk db.modul [b]) sgid := by
  unfold sum_ects_completed joinRows
  simp [List.filterMap_append, List.filter_append]

/-- A nonempty list whose members are all positive has positive sum. -/
theorem list_sum_pos_of_mem {l : List ℚ} (h : ∀ x ∈ l, 0 < x) (hne : l ≠ []) :
    0 < l.sum :=
  List.sum_pos l h hne

/-- A nonempty integer list has a maximum. -/
theorem max_isSome_of_ne_nil {l : List ℤ} (h : l ≠ []) : l.max?.isSome := by
  cases l with
  | nil => exact absurd rfl h
  | cons a t => rfl

/-- checkedDiv succeeds on every nonzero divisor and gives the
unchecked quotient. -/
theorem checkedDiv_of_ne (a : ℚ) {b : ℚ} (hb : b ≠ 0) :
    checkedDiv a b = some (a / b) := by
  unfold checkedDiv
  exact if_neg hb

/-- The checked completion fraction always succeeds. -/
theorem fortschrittChecked_eq (e z : ℚ) :
    (if 0 < z then checkedDiv e z else some 0)
      = some (if 0 < z then e / z else 0) := by
  split_ifs with h
  · exact checkedDiv_of_ne e (ne_of_gt h)
  · rfl

/-- The checked weighted average always succeeds. -/
theorem avg_grade_weightedChecked_eq (db : DB) (sgid : ℤ) :
    avg_grade_weightedChecked db sgid = some (avg_grade_weighted db sgid) := by
  simp only [avg_grade_weightedChecked, avg_grade_weighted]
  split_ifs with h
  · rfl
  · rw [checkedDiv_of_ne _ h]
    rfl

/-- The checked duration derivation always succeeds. -/
theorem sollDauerChecked_eq (dauer : ℚ) (sems : Option ℤ) :
    sollDauerChecked dauer sems = some (sollDauer dauer sems) := by
  unfold sollDauerChecked sollDauer
  cases sems with
  | none => rfl
  | some s =>
    split_ifs with h
    · exact checkedDiv_of_ne _ (by norm_num)
    · rfl

/-- The checked actual-duration computation always succeeds. -/
theorem istDauerChecked_eq (e : ℤ) :
    (if 0 < e then checkedDiv (e : ℚ) (365.25 : ℚ) else some 0)
      = some (if 0 < e then (e : ℚ) / (365.25 : ℚ) else 0) := by
  split_ifs with h
  · exact checkedDiv_of_ne _ (by norm_num)
  · rfl

/-- The checked pace forecast always succeeds. -/
theorem prognoseChecked_eq (start elapsed : ℤ) (erledigt ziel : ℚ) :
    (if 0 < erledigt ∧ 0 < ziel then
      Option.bind (checkedDiv (elapsed : ℚ) erledigt) fun pace =>
        some (some (start + pyRound (pace * ziel)))
    else some none)
      = some (if 0 < erledigt ∧ 0 < ziel then
          some (start + pyRound ((elapsed : ℚ) / erledigt * ziel))
        else none) := by
  split_ifs with h
  · rw [checkedDiv_of_ne _ (ne_of_gt h.1)]
    rfl
  · rfl

/-- The checked plan forecast always succeeds. -/
theorem verzugChecked_eq (start elapsed : ℤ) (erledigt ziel : ℚ)
    (soll_end : Option ℤ) :
    (match soll_end with
     | some se =>
       if 0 < ziel then
         Option.bind
           (if 0 < ziel then
             checkedDiv ((max 0 (se - start) : ℤ) : ℚ) ziel
           else some 0) fun planned_days_per_ects =>
           some (some (pyRound ((elapsed : ℚ) - planned_days_per_ects * erledigt)))
       else some none
     | none => some none)
      = some (match soll_end with
        | some se =>
          if 0 < ziel then
            some (pyRound ((elapsed : ℚ)
              - (if 0 < ziel then ((max 0 (se - start) : ℤ) : ℚ) / ziel else 0)
                * erledigt))
          else none
        | none => none) := by
  cases soll_end with
  | none => rfl
  | some se =>
    dsimp only
    split_ifs with h
    · rw [checkedDiv_of_ne _ (ne_of_gt h)]
      rfl
    · rfl

/-- C1: for every call to compute_kpis with the target semester count
set and positive, ziel_ects is target_semesters * credits_per_semester
regardless of the module catalog (whenever that semester-based value is
positive); when the semester-based value is not positive it falls back
to the catalog credit total; and when that is also non-positive (hence,
by the catalog invariant, zero) ziel_ects is 0. -/
theorem C1_target_credits (db : DB) (sgid start : ℤ) (dauer : ℚ)
    (eps today : ℤ) (s : ℤ) (hpos : 0 < s) :
    (0 < ((s * eps : ℤ) : ℚ) →
      (compute_kpis db sgid start dauer (some s) eps today).ziel_ects
        = ((s * eps : ℤ) : ℚ))
    ∧ (((s * eps : ℤ) : ℚ) ≤ 0 → 0 < get_total_ects db →
      (compute_kpis db sgid start dauer (some s) eps today).ziel_ects
        = get_total_ects db)
    ∧ (((s * eps : ℤ) : ℚ) ≤ 0 → ModulEctsPositive db → get_total_ects db ≤ 0 →
      (compute_kpis db sgid start dauer (some s) eps today).ziel_ects = 0) := by
  simp only [compute_kpis_ziel_ects, zielEcts, if_pos hpos]
  refine ⟨fun h => ?_, fun h htot => ?_, fun h hm hle => ?_⟩
  · rw [if_neg (not_le.mpr h)]
  · rw [if_pos h]
  · rw [if_pos h]
    exact le_antisymm hle (get_total_ects_nonneg db hm)

/-- Witness for C1 at the demo database: 6 target semesters at 30
credits per semester give 180 target credits. -/
theorem C1_target_credits_witness :
    (compute_kpis demoDB 1 0 0 (some 6) 30 100).ziel_ects
      = ((6 * 30 : ℤ) : ℚ) :=
  (C1_target_credits demoDB 1 0 0 30 100 6 (by norm_num)).1 (by norm_num)

/-- C2: in compute_kpis the reference date is the last completion date
exactly when target credits are positive, completed credits reach them
and such a date exists, and today otherwise; elapsed days are
max(0, reference date - start date); and the actual-duration output is
derived from exactly these elapsed days. -/
theorem C2_reference_date_elapsed (db : DB) (sgid start : ℤ) (dauer : ℚ)
    (sems : Option ℤ) (eps today : ℤ) (Z E : ℚ)
    (hZ : Z = zielEcts sems eps (get_total_ects db))
    (hE : E = sum_ects_completed db sgid) :
    (∀ d, last_completion_date db sgid = some d → 0 < Z → Z ≤ E →
        refDate Z E (last_completion_date db sgid) today = d)
    ∧ (¬(0 < Z ∧ Z ≤ E ∧ (last_completion_date db sgid).isSome) →
        refDate Z E (last_completion_date db sgid) today = today)
    ∧ (∀ r : ℤ, elapsedDays start r = max 0 (r - start))
    ∧ ((compute_kpis db sgid start dauer sems eps today).ist_studiendauer_jahre
        = (if 0 < elapsedDays start (refDate Z E (last_completion_date db sgid) today)
          then ((elapsedDays start (refDate Z E (last_completion_date db sgid) today) : ℤ) : ℚ)
              / (365.25 : ℚ)
          else 0)) := by
  subst hZ hE
  refine ⟨?_, ?_, fun r => rfl,
    compute_kpis_ist_dauer db sgid start dauer sems eps today⟩
  · intro d hd h1 h2
    unfold refDate
    rw [if_pos ⟨h1, h2, by rw [hd]; rfl⟩, hd]
    rfl
  · intro h
    unfold refDate
    rw [if_neg h]

/-- Witness for C2 at the demo database: completed credits (5) are below
the target (180), so the reference date is today (day 100). -/
theorem C2_reference_date_elapsed_witness :
    refDate (zielEcts (some 6) 30 (get_total_ects demoDB))
      (sum_ects_completed demoDB 1) (last_completion_date demoDB 1) 100 = 100 := by
  refine (C2_reference_date_elapsed demoDB 1 0 0 (some 6) 30 100 _ _ rfl rfl).2.1 ?_
  rintro ⟨-, hle, -⟩
  rw [show zielEcts (some 6) 30 (get_total_ects demoDB) = 180 by
    norm_num [zielEcts, get_total_ects, demoDB, demoModul],
    show sum_ects_completed demoDB 1 = 5 by
    norm_num [sum_ects_completed, joinRows, demoDB, demoModul, demoBelegung,
      List.filterMap, List.find?]] at hle
  norm_num at hle

/-- C6: compute_kpis is a pure function of its explicit arguments and
the committed data it reads through the four aggregate queries: any two
calls that agree on those inputs return identical DashboardKPIs, so no
hidden state can influence the result. -/
theorem C6_pure_function (db1 db2 : DB) (sgid1 sgid2 start : ℤ) (dauer : ℚ)
    (sems : Option ℤ) (eps today : ℤ)
    (h1 : sum_ects_completed db1 sgid1 = sum_ects_completed db2 sgid2)
    (h2 : avg_grade_weighted db1 sgid1 = avg_grade_weighted db2 sgid2)
    (h3 : last_completion_date db1 sgid1 = last_completion_date db2 sgid2)
    (h4 : get_total_ects db1 = get_total_ects db2) :
    compute_kpis db1 sgid1 start dauer sems eps today
      = compute_kpis db2 sgid2 start dauer sems eps today := by
  simp only [compute_kpis, h1, h2, h3, h4]

/-- Witness for C6: two calls on the identical demo inputs agree. -/
theorem C6_pure_function_witness :
    compute_kpis demoDB 1 0 0 (some 6) 30 100
      = compute_kpis demoDB 1 0 0 (some 6) 30 100 :=
  C6_pure_function demoDB demoDB 1 1 0 0 (some 6) 30 100 rfl rfl rfl rfl

/-- C9: the completion fraction is not clamped: whenever target credits
are positive and completed credits exceed them, fortschritt_ects is
strictly greater than 1. -/
theorem C9_no_clamping (db : DB) (sgid start : ℤ) (dauer : ℚ) (sems : Option ℤ)
    (eps today : ℤ)
    (hz : 0 < (compute_kpis db sgid start dauer sems eps today).ziel_ects)
    (he : (compute_kpis db sgid start dauer sems eps today).ziel_ects
        < (compute_kpis db sgid start dauer sems eps today).erledigt_ects) :
    1 < (compute_kpis db sgid start dauer sems eps today).fortschritt_ects := by
  rw [compute_kpis_ziel_ects] at hz
  rw [compute_kpis_ziel_ects, compute_kpis_erledigt_ects] at he
  rw [compute_kpis_fortschritt, if_pos hz]
  exact (one_lt_div hz).mpr he

/-- Witness for C9: both attempts of the 10-ECTS module completed give
20 completed against 10 target credits, fraction above 1. -/
theorem C9_no_clamping_witness :
    1 < (compute_kpis demoDB2 1 0 0 none 30 100).fortschritt_ects := by
  refine C9_no_clamping demoDB2 1 0 0 none 30 100 ?_ ?_
  · rw [compute_kpis_ziel_ects]
    norm_num [zielEcts, get_total_ects, demoDB2, demoModul2]
  · rw [compute_kpis_ziel_ects, compute_kpis_erledigt_ects]
    norm_num [zielEcts, get_total_ects, sum_ects_completed, joinRows,
      demoDB2, demoModul2, demoBelegung2, List.filterMap, List.find?]

/-- C10: positive completed credits force the existence of a last
completion date (completed credits only come from rows with a
completion date), so when completed credits reach a positive target the
current-date fallback of the reference-date computation is unreachable:
the reference date is the last completion date. -/
theorem C10_completed_implies_last (db : DB) (sgid today : ℤ) (ziel : ℚ) :
    (0 < sum_ects_completed db sgid → (last_completion_date db sgid).isSome)
    ∧ (0 < ziel → ziel ≤ sum_ects_completed db sgid →
        ∃ d, last_completion_date db sgid = some d ∧
          refDate ziel (sum_ects_completed db sgid)
            (last_completion_date db sgid) today = d) := by
  have key : 0 < sum_ects_completed db sgid → (last_completion_date db sgid).isSome := by
    intro hpos
    unfold sum_ects_completed at hpos
    have hne : ((joinRows db sgid).filter fun p => p.1.ist_bestanden_am.isSome) ≠ [] := by
      intro hnil
      rw [hnil] at hpos
      simp at hpos
    obtain ⟨p, hp⟩ := List.exists_mem_of_ne_nil _ hne
    have hpj : p ∈ joinRows db sgid := (List.mem_filter.mp hp).1
    have hsome : p.1.ist_bestanden_am.isSome := by
      have hfilt := (List.mem_filter.mp hp).2
      simpa using hfilt
    obtain ⟨d, hd⟩ := Option.isSome_iff_exists.mp hsome
    obtain ⟨hmem, hsg, -⟩ := mem_joinRows hpj
    have hdmem : d ∈ (db.modul_belegung.filterMap fun b =>
        if b.studiengang_id = sgid then b.ist_bestanden_am else none) := by
      refine List.mem_filterMap.mpr ⟨p.1, hmem, ?_⟩
      rw [if_pos hsg, hd]
    exact max_isSome_of_ne_nil (List.ne_nil_of_mem hdmem)
  refine ⟨key, fun h1 h2 => ?_⟩
  have hsome := key (lt_of_lt_of_le h1 h2)
  obtain ⟨d, hd⟩ := Option.isSome_iff_exists.mp hsome
  refine ⟨d, hd, ?_⟩
  unfold refDate
  rw [if_pos ⟨h1, h2, hsome⟩, hd]
  rfl

/-- Witness for C10: with the 5-credit completion and a reached target
of 5, the reference date is the last completion date, day 100. -/
theorem C10_completed_implies_last_witness :
    ∃ d, last_completion_date demoDB 1 = some d ∧
      refDate 5 (sum_ects_completed demoDB 1)
        (last_completion_date demoDB 1) 50 = d := by
  refine (C10_completed_implies_last demoDB 1 50 5).2 (by norm_num) ?_
  norm_num [sum_ects_completed, joinRows, demoDB, demoModul, demoBelegung,
    List.filterMap, List.find?]

/-- C3: the pace forecast is present exactly when completed credits and
target credits are both positive, in which case it is start date plus
round(elapsed_days / completed_credits * target_credits) days, and its
delta to target is present only when the target end date is defined. -/
theorem C3_pace_forecast (db : DB) (sgid start : ℤ) (dauer : ℚ)
    (sems : Option ℤ) (eps today : ℤ) (Z E : ℚ) (el : ℤ)
    (hZ : Z = zielEcts sems eps (get_total_ects db))
    (hE : E = sum_ects_completed db sgid)
    (hel : el = elapsedDays start (refDate Z E (last_completion_date db sgid) today)) :
    ((compute_kpis db sgid start dauer sems eps today).prognose_studienende.isSome
        ↔ 0 < E ∧ 0 < Z)
    ∧ (0 < E → 0 < Z →
        (compute_kpis db sgid start dauer sems eps today).prognose_studienende
          = some (start + pyRound ((el : ℚ) / E * Z)))
    ∧ ((compute_kpis db sgid start dauer sems eps today).delta_studienende_tage.isSome →
        (compute_kpis db sgid start dauer sems eps today).soll_studienende.isSome) := by
  subst hZ hE hel
  have haux : ∀ p q : Option ℤ,
      (match p, q with
       | some pe, some se => some (pe - se)
       | _, _ => none).isSome → q.isSome := by
    intro p q
    cases p <;> cases q <;> simp
  refine ⟨?_, ?_, ?_⟩
  · rw [compute_kpis_prognose]
    split_ifs with h
    · simp [h.1, h.2]
    · simp [h]
  · intro h1 h2
    rw [compute_kpis_prognose, if_pos ⟨h1, h2⟩]
  · intro hd
    rw [compute_kpis_delta_tage] at hd
    rw [compute_kpis_soll_ende]
    exact haux _ _ hd

/-- Witness for C3 at scenario B of the spec: 5 credits completed 100
days after start against 180 target credits give a forecast of
start + 3600 days. -/
theorem C3_pace_forecast_witness :
    (compute_kpis demoDB 1 0 0 (some 6) 30 100).prognose_studienende
      = some 3600 := by
  have hZv : zielEcts (some 6) 30 (get_total_ects demoDB) = 180 := by
    norm_num [zielEcts, get_total_ects, demoDB, demoModul]
  have hEv : sum_ects_completed demoDB 1 = 5 := by
    norm_num [sum_ects_completed, joinRows, demoDB, demoModul, demoBelegung,
      List.filterMap, List.find?]
  have hlast : last_completion_date demoDB 1 = some 100 := by
    norm_num [last_completion_date, demoDB, demoBelegung, List.filterMap,
      List.max?]
  have helv : (100 : ℤ)
      = elapsedDays 0 (refDate 180 5 (last_completion_date demoDB 1) 100) := by
    rw [hlast]
    norm_num [refDate, elapsedDays]
  have h := (C3_pace_forecast demoDB 1 0 0 (some 6) 30 100 180 5 100
    hZv.symm hEv.symm helv).2.1 (by norm_num) (by norm_num)
  rw [h]
  norm_num [pyRound]

/-- C4: when the target end date is defined and target credits are
positive, the accumulated delay is round(elapsed_days -
target_total_days / target_credits * completed_credits), the plan
forecast end is target end plus that delay, the returned plan delta
always equals the delay, and with zero completed credits the delay is
exactly the elapsed days. -/
theorem C4_plan_forecast (db : DB) (sgid start : ℤ) (dauer : ℚ)
    (sems : Option ℤ) (eps today : ℤ) (Z E : ℚ) (el se : ℤ)
    (hZ : Z = zielEcts sems eps (get_total_ects db))
    (hE : E = sum_ects_completed db sgid)
    (hel : el = elapsedDays start (refDate Z E (last_completion_date db sgid) today))
    (hse : sollEnd start (sollDauer dauer sems) = some se)
    (hZpos : 0 < Z) :
    ((compute_kpis db sgid start dauer sems eps today).verzug_bisher_tage
        = some (pyRound ((el : ℚ) - ((se - start : ℤ) : ℚ) / Z * E)))
    ∧ ((compute_kpis db sgid start dauer sems eps today).prognose_studienende_plan
        = some (se + pyRound ((el : ℚ) - ((se - start : ℤ) : ℚ) / Z * E)))
    ∧ ((compute_kpis db sgid start dauer sems eps today).delta_studienende_plan_tage
        = (compute_kpis db sgid start dauer sems eps today).verzug_bisher_tage)
    ∧ (E = 0 →
        (compute_kpis db sgid start dauer sems eps today).verzug_bisher_tage
          = some el
        ∧ (compute_kpis db sgid start dauer sems eps today).prognose_studienende_plan
          = some (se + el)) := by
  have hnn : 0 ≤ se - start := by
    unfold sollEnd at hse
    split_ifs at hse with hd
    have h0 : 0 ≤ pyRound (sollDauer dauer sems * (365.25 : ℚ)) :=
      pyRound_nonneg (by positivity)
    cases hse
    omega
  have hmax : max 0 (se - start) = se - start := max_eq_right hnn
  have hverzug : (compute_kpis db sgid start dauer sems eps today).verzug_bisher_tage
      = some (pyRound ((el : ℚ) - ((se - start : ℤ) : ℚ) / Z * E)) := by
    rw [compute_kpis_verzug, hse, ← hZ, ← hE, ← hel]
    dsimp only
    rw [if_pos hZpos, if_pos hZpos, hmax]
  have hplan : (compute_kpis db sgid start dauer sems eps today).prognose_studienende_plan
      = some (se + pyRound ((el : ℚ) - ((se - start : ℤ) : ℚ) / Z * E)) := by
    rw [compute_kpis_prognose_plan, hse, hverzug]
  refine ⟨hverzug, hplan, ?_, ?_⟩
  · rw [compute_kpis_delta_plan, hse, hplan, hverzug]
    dsimp only
    congr 1
    omega
  · intro h0
    rw [h0] at hverzug hplan
    constructor
    · rw [hverzug, mul_zero, sub_zero, pyRound_intCast]
    · rw [hplan, mul_zero, sub_zero, pyRound_intCast]

/-- Witness for C4 at the demo database: target end day 1096 with 180
target credits, 5 completed credits and 100 elapsed days give an
accumulated delay of round(100 - 1096/180*5) = 70 days. -/
theorem C4_plan_forecast_witness :
    (compute_kpis demoDB 1 0 0 (some 6) 30 100).verzug_bisher_tage
      = some 70 := by
  have hZv : zielEcts (some 6) 30 (get_total_ects demoDB) = 180 := by
    norm_num [zielEcts, get_total_ects, demoDB, demoModul]
  have hEv : sum_ects_completed demoDB 1 = 5 := by
    norm_num [sum_ects_completed, joinRows, demoDB, demoModul, demoBelegung,
      List.filterMap, List.find?]
  have hlast : last_completion_date demoDB 1 = some 100 := by
    norm_num [last_completion_date, demoDB, demoBelegung, List.filterMap,
      List.max?]
  have helv : (100 : ℤ)
      = elapsedDays 0 (refDate 180 5 (last_completion_date demoDB 1) 100) := by
    rw [hlast]
    norm_num [refDate, elapsedDays]
  have hsev : sollEnd 0 (sollDauer 0 (some 6)) = some 1096 := by
    norm_num [sollEnd, sollDauer, pyRound]
  have h := (C4_plan_forecast demoDB 1 0 0 (some 6) 30 100 180 5 100 1096
    hZv.symm hEv.symm helv hsev (by norm_num)).1
  rw [h]
  norm_num [pyRound]

/-- C5: no division in the KPI engine can divide by zero: the variant
of compute_kpis in which every division (completion fraction, weighted
average, semester-to-year derivation, actual duration, pace, planned
days per credit) fails on a zero divisor always succeeds, and returns
exactly the unchecked result, for every input. -/
theorem C5_no_division_by_zero (db : DB) (sgid start : ℤ) (dauer : ℚ)
    (sems : Option ℤ) (eps today : ℤ) :
    compute_kpisChecked db sgid start dauer sems eps today
      = some (compute_kpis db sgid start dauer sems eps today) := by
  simp only [compute_kpisChecked, avg_grade_weightedChecked_eq,
    sollDauerChecked_eq, prognoseChecked_eq, verzugChecked_eq,
    Option.some_bind]
  simp only [fortschrittChecked_eq, istDauerChecked_eq, Option.some_bind]
  rfl

/-- C7: completing one additional enrollment never decreases the
completion fraction: appending one completed enrollment row to the
database (with the catalog, and hence the target credits, unchanged)
gives a fortschritt_ects at least as large. -/
theorem C7_fraction_monotone (db : DB) (sgid start : ℤ) (dauer : ℚ)
    (sems : Option ℤ) (eps today : ℤ) (b : ModulBelegung)
    (hm : ModulEctsPositive db) (_hb : b.ist_bestanden_am.isSome) :
    (compute_kpis db sgid start dauer sems eps today).fortschritt_ects
      ≤ (compute_kpis (DB.mk db.modul (db.modul_belegung ++ [b]))
          sgid start dauer sems eps today).fortschritt_ects := by
  rw [compute_kpis_fortschritt, compute_kpis_fortschritt]
  have htot : get_total_ects (DB.mk db.modul (db.modul_belegung ++ [b]))
      = get_total_ects db := rfl
  rw [htot]
  have hsum : sum_ects_completed db sgid
      ≤ sum_ects_completed (DB.mk db.modul (db.modul_belegung ++ [b])) sgid := by
    rw [sum_ects_completed_append]
    have hnn : 0 ≤ sum_ects_completed (DB.mk db.modul [b]) sgid :=
      sum_ects_completed_nonneg _ _ hm
    linarith
  split_ifs with h
  · exact (div_le_div_iff_of_pos_right h).mpr hsum
  · exact le_refl 0

/-- Witness for C7: adding a second completed enrollment of the demo
module does not decrease the completion fraction. -/
theorem C7_fraction_monotone_witness :
    (compute_kpis demoDB 1 0 0 (some 6) 30 100).fortschritt_ects
      ≤ (compute_kpis (DB.mk demoDB.modul (demoDB.modul_belegung ++ [demoBelegung2]))
          1 0 0 (some 6) 30 100).fortschritt_ects :=
  C7_fraction_monotone demoDB 1 0 0 (some 6) 30 100 demoBelegung2
    (by norm_num [ModulEctsPositive, demoDB, demoModul]) (by decide)

/-- C8: the weighted average grade is absent exactly when no graded
enrollment exists for the program, and otherwise equals the sum of
credit-weighted grades divided by the sum of credits over the graded
enrollments (using the catalog invariant that credits are positive). -/
theorem C8_weighted_average (db : DB) (sgid : ℤ) (hm : ModulEctsPositive db) :
    (avg_grade_weighted db sgid = none ↔ gradedRows db sgid = [])
    ∧ (gradedRows db sgid ≠ [] →
        avg_grade_weighted db sgid
          = some (((gradedRows db sgid).map
                fun p => (p.2.ects : ℚ) * p.1.ist_note.getD 0).sum
              / ((gradedRows db sgid).map fun p => (p.2.ects : ℚ)).sum)) := by
  have hpos : gradedRows db sgid ≠ [] →
      0 < ((gradedRows db sgid).map fun p => (p.2.ects : ℚ)).sum := by
    intro hne
    apply list_sum_pos_of_mem
    · intro x hx
      rcases List.mem_map.mp hx with ⟨p, hp, rfl⟩
      simp only [gradedRows] at hp
      have hpj : p ∈ joinRows db sgid := (List.mem_filter.mp hp).1
      exact_mod_cast hm p.2 (mem_joinRows hpj).2.2
    · simpa using hne
  have hiff : (((gradedRows db sgid).map fun p => (p.2.ects : ℚ)).sum = 0)
      ↔ gradedRows db sgid = [] := by
    constructor
    · intro h0
      by_contra hne
      exact absurd h0 (ne_of_gt (hpos hne))
    · intro h
      rw [h]
      simp
  constructor
  · simp only [avg_grade_weighted]
    split_ifs with h
    · simpa using hiff.mp h
    · exact ⟨fun hc => absurd hc (by simp), fun hg => absurd (hiff.mpr hg) h⟩
  · intro hne
    simp only [avg_grade_weighted]
    rw [if_neg fun h0 => hne (hiff.mp h0)]

/-- Witness for C8: the single graded 5-credit enrollment with grade 2
gives weighted average (5*2)/5 = 2. -/
theorem C8_weighted_average_witness :
    avg_grade_weighted demoDB 1 = some 2 := by
  have h := (C8_weighted_average demoDB 1
    (by norm_num [ModulEctsPositive, demoDB, demoModul])).2 (by decide)
  rw [h]
  norm_num [gradedRows, joinRows, demoDB, demoModul, demoBelegung,
    List.filterMap, List.find?]
